import Mathlib

/-!
Verification of the AI contract assistant reminder logic
(`Frontend/src/utils/aiAssistant.ts`): `generateContractReminders` and
`getStatusSuggestions`.

Modelling conventions:
* A contract's `createdAt` field is an ISO date string in the source which is
  immediately parsed via `new Date(createdAt).getTime()`; we model it directly
  as its parsed value, a number of milliseconds since the epoch (`Int`).
* The JavaScript object `reminders` keyed by contract id is modelled as an
  association list `List (String × String)` with JavaScript object-update
  semantics: assigning to an existing key overwrites it in place, assigning to
  a fresh key appends the entry at the end.
* `Date.now()` is passed in explicitly as the `now : Int` parameter.
-/

namespace Lindle

/-- A contract as consumed by `generateContractReminders`: the fields of the
anonymous record type in the source.  `createdAt` is the parsed timestamp in
milliseconds (see the modelling conventions above). -/
structure Contract where
  id : String
  fileName : String
  status : String
  createdAt : Int
  deriving Repr, DecidableEq

/-- `Math.floor((now - new Date(contract.createdAt).getTime()) / (1000 * 60 * 60 * 24))`:
the elapsed whole days.  `Int.fdiv` is floor division, matching
`Math.floor` applied to the exact real quotient. -/
def daysSinceCreated (now createdAt : Int) : Int :=
  Int.fdiv (now - createdAt) (1000 * 60 * 60 * 24)

/-- The body of the `switch (contract.status)` statement: the reminder message
produced for a single contract, if any.  Each `case` mirrors the source; the
cascaded `if / else if` chains become nested `if`s, and falling through the
final `break` without assigning yields `none`. -/
def reminderFor (now : Int) (c : Contract) : Option String :=
  let daysSinceCreated := daysSinceCreated now c.createdAt
  match c.status with
  | "draft" =>
    if daysSinceCreated ≥ 3 then
      some ("📝 This draft has been sitting for " ++ toString daysSinceCreated ++
        " days. Consider reviewing and moving to negotiation.")
    else none
  | "negotiating" =>
    if daysSinceCreated ≥ 7 then
      some ("💬 Negotiation ongoing for " ++ toString daysSinceCreated ++
        " days. Time to follow up with the counterparty?")
    else none
  | "signed in" =>
    if daysSinceCreated ≥ 14 then
      some ("🔥 Hey, there's possibility to sign this deal in this week - it's been signed for "
        ++ toString daysSinceCreated ++ " days. Time to start execution!")
    else if daysSinceCreated ≥ 7 then
      some ("📋 Contract signed " ++ toString daysSinceCreated ++
        " days ago. Prepare for project kickoff!")
    else none
  | "in progress" =>
    if daysSinceCreated ≥ 30 then
      some ("⏰ This contract has been in progress for " ++ toString daysSinceCreated ++
        " days. Check if milestones are being met.")
    else if daysSinceCreated ≥ 14 then
      some ("🚀 Project running for " ++ toString daysSinceCreated ++
        " days. Consider sending a progress update to the client.")
    else none
  | "completed" =>
    if daysSinceCreated ≤ 30 then
      some "✅ Great job completing this contract! Consider asking for testimonials or referrals."
    else none
  | _ => none

/-- `reminders[contract.id] = msg`: JavaScript object assignment on an
association list.  An existing key is overwritten in place; a fresh key is
appended at the end. -/
def setKey (m : List (String × String)) (k v : String) : List (String × String) :=
  match m with
  | [] => [(k, v)]
  | (k', v') :: rest => if k' = k then (k, v) :: rest else (k', v') :: setKey rest k v

/-- The body of the `contracts.forEach` loop: run the `switch` on one contract
and, when it produces a message, assign it under the contract's id. -/
def applyReminder (now : Int) (reminders : List (String × String)) (c : Contract) :
    List (String × String) :=
  match reminderFor now c with
  | some msg => setKey reminders c.id msg
  | none => reminders

/-- `generateContractReminders`: folds the `contracts.forEach` loop over the
initially empty `reminders` object. -/
def generateContractReminders (now : Int) (contracts : List Contract) :
    List (String × String) :=
  contracts.foldl (applyReminder now) []

/-- Key lookup in the reminders object: the value stored under `k`, if any. -/
def lookupId (k : String) : List (String × String) → Option String
  | [] => none
  | (k', v) :: rest => if k' = k then some v else lookupId k rest

/-- `getStatusSuggestions`: each `case` pushes its literal suggestions in
order; the `draft` case conditionally pushes the red-flag line (with plural
`s` exactly when the count exceeds one) between its two fixed suggestions. -/
def getStatusSuggestions (status : String) (redFlagsCount : Int) : List String :=
  match status with
  | "draft" =>
    ["Review the contract terms thoroughly before moving to negotiation"]
    ++ (if redFlagsCount > 0 then
          ["Address the " ++ toString redFlagsCount ++ " red flag" ++
            (if redFlagsCount > 1 then "s" else "") ++ " identified in the analysis"]
        else [])
    ++ ["Prepare your negotiation points and pushback strategies"]
  | "negotiating" =>
    ["Keep track of all proposed changes in writing",
     "Set clear deadlines for negotiation rounds",
     "Consider scheduling a call to discuss complex terms"]
  | "signed in" =>
    ["Confirm all parties have signed copies",
     "Set up project management tools and communication channels",
     "Schedule kickoff meeting with all stakeholders"]
  | "in progress" =>
    ["Send regular progress updates to maintain transparency",
     "Track deliverables against agreed milestones",
     "Document any scope changes or additional requests"]
  | "completed" =>
    ["Request feedback and testimonials from the client",
     "Ask for referrals to similar projects",
     "Archive project files and update your portfolio"]
  | _ => []

/-! ### Association-list lemmas for the reminders object -/

theorem lookupId_setKey_self (m : List (String × String)) (k v : String) :
    lookupId k (setKey m k v) = some v := by
  induction m with
  | nil => simp [setKey, lookupId]
  | cons hd tl ih =>
    obtain ⟨k', v'⟩ := hd
    by_cases h : k' = k <;> simp [setKey, lookupId, h, ih]

theorem lookupId_setKey_of_ne (m : List (String × String)) (k k' v : String)
    (h : k' ≠ k) : lookupId k (setKey m k' v) = lookupId k m := by
  induction m with
  | nil => simp [setKey, lookupId, h]
  | cons hd tl ih =>
    obtain ⟨a, b⟩ := hd
    by_cases ha : a = k' <;> by_cases hk : a = k <;>
      simp_all [setKey, lookupId]

theorem lookupId_eq_none_iff (k : String) (m : List (String × String)) :
    lookupId k m = none ↔ k ∉ m.map Prod.fst := by
  induction m with
  | nil => simp [lookupId]
  | cons hd tl ih =>
    obtain ⟨k', v⟩ := hd
    rw [List.map_cons, List.mem_cons]
    by_cases h : k' = k
    · subst h; simp [lookupId]
    · simp only [lookupId, if_neg h, ih]
      constructor
      · intro hk hor
        rcases hor with he | hm
        · exact h he.symm
        · exact hk hm
      · intro hk hm
        exact hk (Or.inr hm)

/-- Contracts whose id differs from `k` leave the entry under `k` unchanged. -/
theorem lookupId_foldl_of_ne (now : Int) (l : List Contract)
    (acc : List (String × String)) (k : String) (h : ∀ c ∈ l, c.id ≠ k) :
    lookupId k (l.foldl (applyReminder now) acc) = lookupId k acc := by
  induction l generalizing acc with
  | nil => rfl
  | cons hd tl ih =>
    rw [List.foldl_cons, ih _ (fun c hc => h c (List.mem_cons_of_mem _ hc))]
    unfold applyReminder
    cases hrem : reminderFor now hd with
    | none => rfl
    | some msg => exact lookupId_setKey_of_ne _ _ _ _ (h hd (List.mem_cons_self _ _))

/-- For a contract list with pairwise distinct ids, the final entry under a
contract's id is exactly what the `switch` produced for that contract. -/
theorem lookupId_foldl_eq_reminderFor (now : Int) (l : List Contract)
    (acc : List (String × String)) (hnd : (l.map Contract.id).Nodup)
    (c : Contract) (hc : c ∈ l) (hacc : lookupId c.id acc = none) :
    lookupId c.id (l.foldl (applyReminder now) acc) = reminderFor now c := by
  induction l generalizing acc with
  | nil => cases hc
  | cons hd tl ih =>
    rw [List.map_cons, List.nodup_cons] at hnd
    rw [List.foldl_cons]
    rcases List.mem_cons.mp hc with rfl | hmem
    · have hni : ∀ c' ∈ tl, c'.id ≠ c.id := by
        intro c' hc' he
        exact hnd.1 (he ▸ List.mem_map_of_mem Contract.id hc')
      rw [lookupId_foldl_of_ne now tl _ _ hni]
      unfold applyReminder
      cases hrem : reminderFor now c with
      | none => simpa using hacc
      | some msg => exact lookupId_setKey_self _ _ _
    · have hne : hd.id ≠ c.id := by
        intro he
        exact hnd.1 (he ▸ List.mem_map_of_mem Contract.id hmem)
      refine ih _ hnd.2 hmem ?_
      unfold applyReminder
      cases hrem : reminderFor now hd with
      | none => exact hacc
      | some msg => rw [lookupId_setKey_of_ne _ _ _ _ hne]; exact hacc

/-- The entry under each contract's id in the returned reminders object is
exactly the `Option` produced by the status cascade for that contract. -/
theorem lookupId_generateContractReminders (now : Int) (contracts : List Contract)
    (hnd : (contracts.map Contract.id).Nodup) (c : Contract) (hc : c ∈ contracts) :
    lookupId c.id (generateContractReminders now contracts) = reminderFor now c :=
  lookupId_foldl_eq_reminderFor now contracts [] hnd c hc rfl

/-! ### Claim theorems -/

/-- C1: for every contract in an input list with pairwise-distinct ids, the
returned map's entry under the contract's id is exactly the `Option` produced
by the descending threshold cascade — so at most one message is produced per
contract — and a contract for which no threshold matches has no entry at all
in the returned map (it is never mapped to an empty string). -/
theorem reminders_cascade_at_most_one (now : Int) (contracts : List Contract)
    (hnd : (contracts.map Contract.id).Nodup) (c : Contract) (hc : c ∈ contracts) :
    lookupId c.id (generateContractReminders now contracts) = reminderFor now c ∧
    (reminderFor now c = none →
      c.id ∉ (generateContractReminders now contracts).map Prod.fst) := by
  have h := lookupId_generateContractReminders now contracts hnd c hc
  exact ⟨h, fun hn => (lookupId_eq_none_iff _ _).mp (h.trans hn)⟩

def witnessDraft : Contract := ⟨"a", "draft.pdf", "draft", 0⟩

def witnessCompleted : Contract := ⟨"b", "done.pdf", "completed", -2678400000⟩

theorem reminders_cascade_at_most_one_witness :
    lookupId "a" (generateContractReminders 432000000 [witnessDraft, witnessCompleted]) =
      reminderFor 432000000 witnessDraft ∧
    (reminderFor 432000000 witnessDraft = none →
      "a" ∉ (generateContractReminders 432000000
        [witnessDraft, witnessCompleted]).map Prod.fst) :=
  reminders_cascade_at_most_one 432000000 [witnessDraft, witnessCompleted]
    (by decide) witnessDraft (by decide)

/-- C2: a signed-in contract whose computed age is exactly 14 days gets the
≥ 14 "time to start execution" message, not the 7–13 kickoff message: the
boundary is inclusive on the higher threshold. -/
theorem signed_in_age_fourteen_high_branch (now : Int) (c : Contract)
    (hs : c.status = "signed in")
    (h14 : daysSinceCreated now c.createdAt = 14) :
    reminderFor now c =
      some "🔥 Hey, there's possibility to sign this deal in this week - it's been signed for 14 days. Time to start execution!" := by
  simp [reminderFor, hs, h14]
  rfl

theorem signed_in_age_fourteen_high_branch_witness :
    reminderFor 1209600000 ⟨"s", "c.pdf", "signed in", 0⟩ =
      some "🔥 Hey, there's possibility to sign this deal in this week - it's been signed for 14 days. Time to start execution!" :=
  signed_in_age_fourteen_high_branch 1209600000 ⟨"s", "c.pdf", "signed in", 0⟩
    rfl (by decide)

/-- C3: a completed contract gets the congratulatory reminder exactly when its
computed age is at most 30 days — at age 30 the message is produced, and at
age 31 (or any age above 30) no entry at all is produced for that contract:
the switch yields `none`. -/
theorem completed_congrats_iff_age_le_thirty (now : Int) (c : Contract)
    (hs : c.status = "completed") :
    (reminderFor now c =
        some "✅ Great job completing this contract! Consider asking for testimonials or referrals." ↔
      daysSinceCreated now c.createdAt ≤ 30) ∧
    (30 < daysSinceCreated now c.createdAt → reminderFor now c = none) := by
  constructor
  · by_cases h : daysSinceCreated now c.createdAt ≤ 30 <;> simp [reminderFor, hs, h]
  · intro h
    simp [reminderFor, hs, show ¬(daysSinceCreated now c.createdAt ≤ 30) by omega]

theorem completed_congrats_iff_age_le_thirty_witness :
    ((reminderFor 2592000000 ⟨"d", "done.pdf", "completed", 0⟩ =
        some "✅ Great job completing this contract! Consider asking for testimonials or referrals." ↔
      daysSinceCreated 2592000000 0 ≤ 30) ∧
     (30 < daysSinceCreated 2592000000 0 →
      reminderFor 2592000000 ⟨"d", "done.pdf", "completed", 0⟩ = none)) ∧
    ((reminderFor 2678400000 ⟨"e", "done.pdf", "completed", 0⟩ =
        some "✅ Great job completing this contract! Consider asking for testimonials or referrals." ↔
      daysSinceCreated 2678400000 0 ≤ 30) ∧
     (30 < daysSinceCreated 2678400000 0 →
      reminderFor 2678400000 ⟨"e", "done.pdf", "completed", 0⟩ = none)) :=
  ⟨completed_congrats_iff_age_le_thirty 2592000000
      ⟨"d", "done.pdf", "completed", 0⟩ rfl,
   completed_congrats_iff_age_le_thirty 2678400000
      ⟨"e", "done.pdf", "completed", 0⟩ rfl⟩

/-- C4: a draft younger than 3 days gets no entry; a draft at least 3 days
old gets an entry whose message is the draft template with the exact computed
age spliced in. -/
theorem draft_reminder_threshold (now : Int) (c : Contract)
    (hs : c.status = "draft") :
    (daysSinceCreated now c.createdAt < 3 → reminderFor now c = none) ∧
    (3 ≤ daysSinceCreated now c.createdAt →
      reminderFor now c =
        some ("📝 This draft has been sitting for " ++
          toString (daysSinceCreated now c.createdAt) ++
          " days. Consider reviewing and moving to negotiation.")) := by
  constructor <;> intro h
  · simp [reminderFor, hs, show ¬(3 ≤ daysSinceCreated now c.createdAt) by omega]
  · simp [reminderFor, hs, h]

theorem draft_reminder_threshold_witness :
    (daysSinceCreated 432000000 0 < 3 →
      reminderFor 432000000 ⟨"a", "draft.pdf", "draft", 0⟩ = none) ∧
    (3 ≤ daysSinceCreated 432000000 0 →
      reminderFor 432000000 ⟨"a", "draft.pdf", "draft", 0⟩ =
        some ("📝 This draft has been sitting for " ++
          toString (daysSinceCreated 432000000 0) ++
          " days. Consider reviewing and moving to negotiation.")) :=
  draft_reminder_threshold 432000000 ⟨"a", "draft.pdf", "draft", 0⟩ rfl

/-- C5: draft suggestions: with no red flags, exactly the two fixed
suggestions (no red-flag line); with one red flag, three suggestions using
the singular "1 red flag"; with three red flags, the plural "3 red flags". -/
theorem draft_suggestions_red_flag_counts :
    getStatusSuggestions "draft" 0 =
      ["Review the contract terms thoroughly before moving to negotiation",
       "Prepare your negotiation points and pushback strategies"] ∧
    getStatusSuggestions "draft" 1 =
      ["Review the contract terms thoroughly before moving to negotiation",
       "Address the 1 red flag identified in the analysis",
       "Prepare your negotiation points and pushback strategies"] ∧
    getStatusSuggestions "draft" 3 =
      ["Review the contract terms thoroughly before moving to negotiation",
       "Address the 3 red flags identified in the analysis",
       "Prepare your negotiation points and pushback strategies"] :=
  ⟨rfl, rfl, rfl⟩

/-- C6: an unrecognized status is a silent no-op, not a failure: the switch
produces no message for such a contract, so (with distinct ids) the contract
has no entry in the reminders map, and `getStatusSuggestions` returns the
empty list. -/
theorem unrecognized_status_empty (status : String)
    (h1 : status ≠ "draft") (h2 : status ≠ "negotiating")
    (h3 : status ≠ "signed in") (h4 : status ≠ "in progress")
    (h5 : status ≠ "completed") (now : Int) (c : Contract)
    (hc : c.status = status) (n : Int) (contracts : List Contract)
    (hmem : c ∈ contracts) (hnd : (contracts.map Contract.id).Nodup) :
    reminderFor now c = none ∧
    c.id ∉ (generateContractReminders now contracts).map Prod.fst ∧
    getStatusSuggestions status n = [] := by
  have hrem : reminderFor now c = none := by
    simp [reminderFor, hc, h1, h2, h3, h4, h5]
  refine ⟨hrem, ?_, ?_⟩
  · exact (lookupId_eq_none_iff _ _).mp
      ((lookupId_generateContractReminders now contracts hnd c hmem).trans hrem)
  · simp [getStatusSuggestions, h1, h2, h3, h4, h5]

theorem unrecognized_status_empty_witness :
    reminderFor 0 ⟨"u", "f.pdf", "unknown_status", 0⟩ = none ∧
    "u" ∉ (generateContractReminders 0
      [⟨"u", "f.pdf", "unknown_status", 0⟩]).map Prod.fst ∧
    getStatusSuggestions "unknown_status" 0 = [] :=
  unrecognized_status_empty "unknown_status" (by decide) (by decide) (by decide)
    (by decide) (by decide) 0 ⟨"u", "f.pdf", "unknown_status", 0⟩ rfl 0
    [⟨"u", "f.pdf", "unknown_status", 0⟩] (by decide) (by decide)

/-- C7: the computed age equals the floor of the millisecond difference
divided by 86,400,000 (as an exact rational quotient), and is nonnegative
whenever `createdAt ≤ now`. -/
theorem age_is_floor_of_day_quotient (now createdAt : Int)
    (h : createdAt ≤ now) :
    daysSinceCreated now createdAt =
      ⌊(((now : ℚ)) - ((createdAt : ℚ))) / 86400000⌋ ∧
    0 ≤ daysSinceCreated now createdAt := by
  constructor
  · unfold daysSinceCreated
    rw [Int.fdiv_eq_ediv _ (by norm_num)]
    rw [show (((now : ℚ)) - ((createdAt : ℚ))) = ((now - createdAt : ℤ) : ℚ) by
      push_cast; ring]
    rw [show (86400000 : ℚ) = ((86400000 : ℕ) : ℚ) by norm_num]
    rw [Rat.floor_intCast_div_natCast]
    norm_num
  · exact Int.fdiv_nonneg (by omega) (by norm_num)

theorem age_is_floor_of_day_quotient_witness :
    (daysSinceCreated 432000000 0 =
      ⌊((((432000000 : ℤ) : ℚ)) - (((0 : ℤ) : ℚ))) / 86400000⌋ ∧
    0 ≤ daysSinceCreated 432000000 0) :=
  age_is_floor_of_day_quotient 432000000 0 (by decide)

/-- C8 (counterexample): a draft of age exactly 3 days produces the code's
emoji-prefixed message, not the spec's bare template with the age
substituted. -/
theorem spec_template_mismatch_counterexample :
    reminderFor 259200000 ⟨"c1", "f.pdf", "draft", 0⟩ =
      some "📝 This draft has been sitting for 3 days. Consider reviewing and moving to negotiation." ∧
    reminderFor 259200000 ⟨"c1", "f.pdf", "draft", 0⟩ ≠
      some "This draft has been sitting for 3 days. Consider reviewing and moving to negotiation." := by
  exact ⟨by decide, by decide⟩

/-- C8 (amended): for every contract whose status and age match a row of the
reminder rule table, the produced message equals the code's emoji-prefixed
template for that row with the computed age substituted — all seven rows:
draft ≥ 3, negotiating ≥ 7, signed-in ≥ 14, signed-in 7–13, in-progress ≥ 30,
in-progress 14–29, and completed ≤ 30. -/
theorem reminder_messages_match_code_templates (now : Int) (c : Contract) :
    (c.status = "draft" → 3 ≤ daysSinceCreated now c.createdAt →
      reminderFor now c =
        some ("📝 This draft has been sitting for " ++
          toString (daysSinceCreated now c.createdAt) ++
          " days. Consider reviewing and moving to negotiation.")) ∧
    (c.status = "negotiating" → 7 ≤ daysSinceCreated now c.createdAt →
      reminderFor now c =
        some ("💬 Negotiation ongoing for " ++
          toString (daysSinceCreated now c.createdAt) ++
          " days. Time to follow up with the counterparty?")) ∧
    (c.status = "signed in" → 14 ≤ daysSinceCreated now c.createdAt →
      reminderFor now c =
        some ("🔥 Hey, there's possibility to sign this deal in this week - it's been signed for " ++
          toString (daysSinceCreated now c.createdAt) ++
          " days. Time to start execution!")) ∧
    (c.status = "signed in" → 7 ≤ daysSinceCreated now c.createdAt →
      daysSinceCreated now c.createdAt < 14 →
      reminderFor now c =
        some ("📋 Contract signed " ++
          toString (daysSinceCreated now c.createdAt) ++
          " days ago. Prepare for project kickoff!")) ∧
    (c.status = "in progress" → 30 ≤ daysSinceCreated now c.createdAt →
      reminderFor now c =
        some ("⏰ This contract has been in progress for " ++
          toString (daysSinceCreated now c.createdAt) ++
          " days. Check if milestones are being met.")) ∧
    (c.status = "in progress" → 14 ≤ daysSinceCreated now c.createdAt →
      daysSinceCreated now c.createdAt < 30 →
      reminderFor now c =
        some ("🚀 Project running for " ++
          toString (daysSinceCreated now c.createdAt) ++
          " days. Consider sending a progress update to the client.")) ∧
    (c.status = "completed" → daysSinceCreated now c.createdAt ≤ 30 →
      reminderFor now c =
        some "✅ Great job completing this contract! Consider asking for testimonials or referrals.") := by
  refine ⟨?_, ?_, ?_, ?_, ?_, ?_, ?_⟩
  · intro hs h; simp [reminderFor, hs, h]
  · intro hs h; simp [reminderFor, hs, h]
  · intro hs h; simp [reminderFor, hs, h]
  · intro hs h7 h14
    simp [reminderFor, hs, h7,
      show ¬(14 ≤ daysSinceCreated now c.createdAt) by omega]
  · intro hs h; simp [reminderFor, hs, h]
  · intro hs h14 h30
    simp [reminderFor, hs, h14,
      show ¬(30 ≤ daysSinceCreated now c.createdAt) by omega]
  · intro hs h; simp [reminderFor, hs, h]

theorem reminder_messages_match_code_templates_witness :
    reminderFor 259200000 ⟨"c1", "f.pdf", "draft", 0⟩ =
      some ("📝 This draft has been sitting for " ++
        toString (daysSinceCreated 259200000 0) ++
        " days. Consider reviewing and moving to negotiation.") ∧
    reminderFor 604800000 ⟨"c2", "f.pdf", "negotiating", 0⟩ =
      some ("💬 Negotiation ongoing for " ++
        toString (daysSinceCreated 604800000 0) ++
        " days. Time to follow up with the counterparty?") ∧
    reminderFor 1209600000 ⟨"c3", "f.pdf", "signed in", 0⟩ =
      some ("🔥 Hey, there's possibility to sign this deal in this week - it's been signed for " ++
        toString (daysSinceCreated 1209600000 0) ++
        " days. Time to start execution!") ∧
    reminderFor 604800000 ⟨"c4", "f.pdf", "signed in", 0⟩ =
      some ("📋 Contract signed " ++
        toString (daysSinceCreated 604800000 0) ++
        " days ago. Prepare for project kickoff!") ∧
    reminderFor 2592000000 ⟨"c5", "f.pdf", "in progress", 0⟩ =
      some ("⏰ This contract has been in progress for " ++
        toString (daysSinceCreated 2592000000 0) ++
        " days. Check if milestones are being met.") ∧
    reminderFor 1209600000 ⟨"c6", "f.pdf", "in progress", 0⟩ =
      some ("🚀 Project running for " ++
        toString (daysSinceCreated 1209600000 0) ++
        " days. Consider sending a progress update to the client.") ∧
    reminderFor 0 ⟨"c7", "f.pdf", "completed", 0⟩ =
      some "✅ Great job completing this contract! Consider asking for testimonials or referrals." :=
  ⟨(reminder_messages_match_code_templates 259200000
      ⟨"c1", "f.pdf", "draft", 0⟩).1 rfl (by decide),
   (reminder_messages_match_code_templates 604800000
      ⟨"c2", "f.pdf", "negotiating", 0⟩).2.1 rfl (by decide),
   (reminder_messages_match_code_templates 1209600000
      ⟨"c3", "f.pdf", "signed in", 0⟩).2.2.1 rfl (by decide),
   (reminder_messages_match_code_templates 604800000
      ⟨"c4", "f.pdf", "signed in", 0⟩).2.2.2.1 rfl (by decide) (by decide),
   (reminder_messages_match_code_templates 2592000000
      ⟨"c5", "f.pdf", "in progress", 0⟩).2.2.2.2.1 rfl (by decide),
   (reminder_messages_match_code_templates 1209600000
      ⟨"c6", "f.pdf", "in progress", 0⟩).2.2.2.2.2.1 rfl (by decide) (by decide),
   (reminder_messages_match_code_templates 0
      ⟨"c7", "f.pdf", "completed", 0⟩).2.2.2.2.2.2 rfl (by decide)⟩

/-- C9: a completed contract created strictly in the future of `now` has a
negative computed age, which still satisfies the `age ≤ 30` guard — the only
guard on the completed branch — so the congratulatory entry is produced
anyway. -/
theorem completed_future_creation_still_congratulated (now : Int) (c : Contract)
    (hs : c.status = "completed") (hf : now < c.createdAt) :
    daysSinceCreated now c.createdAt < 0 ∧
    reminderFor now c =
      some "✅ Great job completing this contract! Consider asking for testimonials or referrals." := by
  have hneg : daysSinceCreated now c.createdAt < 0 :=
    Int.fdiv_neg' (by omega) (by norm_num)
  exact ⟨hneg, by
    simp [reminderFor, hs, show daysSinceCreated now c.createdAt ≤ 30 by omega]⟩

theorem completed_future_creation_witness :
    daysSinceCreated 0 86400000 < 0 ∧
    reminderFor 0 ⟨"z", "f.pdf", "completed", 86400000⟩ =
      some "✅ Great job completing this contract! Consider asking for testimonials or referrals." :=
  completed_future_creation_still_congratulated 0
    ⟨"z", "f.pdf", "completed", 86400000⟩ rfl (by decide)

/-- C10: for draft, the red-flag suggestion appears iff the count is
positive; every count ≤ 0 (including negatives) yields exactly the same
2-element list as count 0, and when present the red-flag suggestion is the
second element of a 3-element list. -/
theorem draft_red_flag_iff_positive (n : Int) :
    (n ≤ 0 → getStatusSuggestions "draft" n = getStatusSuggestions "draft" 0) ∧
    (n ≤ 0 → getStatusSuggestions "draft" n =
      ["Review the contract terms thoroughly before moving to negotiation",
       "Prepare your negotiation points and pushback strategies"]) ∧
    (0 < n → getStatusSuggestions "draft" n =
      ["Review the contract terms thoroughly before moving to negotiation",
       "Address the " ++ toString n ++ " red flag" ++
         (if n > 1 then "s" else "") ++ " identified in the analysis",
       "Prepare your negotiation points and pushback strategies"]) := by
  refine ⟨?_, ?_, ?_⟩ <;> intro h
  · simp [getStatusSuggestions, show ¬(n > 0) by omega]
  · simp [getStatusSuggestions, show ¬(n > 0) by omega]
  · simp [getStatusSuggestions, h]

theorem draft_red_flag_iff_positive_witness :
    getStatusSuggestions "draft" (-5) = getStatusSuggestions "draft" 0 ∧
    getStatusSuggestions "draft" 3 =
      ["Review the contract terms thoroughly before moving to negotiation",
       "Address the " ++ toString (3 : ℤ) ++ " red flag" ++
         (if (3 : ℤ) > 1 then "s" else "") ++ " identified in the analysis",
       "Prepare your negotiation points and pushback strategies"] :=
  ⟨(draft_red_flag_iff_positive (-5)).1 (by decide),
   (draft_red_flag_iff_positive 3).2.2 (by decide)⟩

end Lindle
